import Mathlib

/-!
Shallow embedding of the odnu-faas space-news pipeline
(src/functions/src/index.ts) and verification of its specification.

The program is a fetch-aggregate-store batch job:
  clearFirestore  — delete every document, one atomic batch per collection;
  fetchWithLogging — GET a URL, fail on non-2xx or transport error,
                     otherwise return the JSON body;
  fetchSpaceNews  — four sequential fetches assembled into one record,
                    `null` on the first failure;
  fetchAndStoreSpaceNews — clear, fetch, write at spaceNews/latest,
                    all failures caught and logged internally;
  fetchNewsHandler / scheduledApiFetch — the two entry points.

Effects are made explicit: the network is an oracle `Request → HttpResult`,
store commit/write failures are oracles `Nat → Bool` / `Bool`, and each
operation returns the resulting store together with the list of observable
events it performed, in order.
-/

/-- A JSON value, the untyped payload shape the program passes around. -/
inductive Json where
  | null : Json
  | bool (b : Bool) : Json
  | num (n : Int) : Json
  | str (s : String) : Json
  | arr (elems : List Json) : Json
  | obj (fields : List (String × Json)) : Json
deriving Repr

/-- An HTTP GET request: URL plus headers, exactly the data
`fetch(url, { headers })` sends. -/
structure Request where
  url : String
  headers : List (String × String)
deriving Repr, DecidableEq

/-- What the transport returns for a request: either a transport-level
failure (DNS, timeout, reset) or a response with a status and a JSON body. -/
inductive HttpResult where
  | transportError (cause : String) : HttpResult
  | response (status : Nat) (body : Json) : HttpResult

/-- The network oracle: the behaviour of the outside world during one run. -/
abbrev Net : Type := Request → HttpResult

/-- Errors raised by `fetchWithLogging`: the non-2xx branch throws an error
carrying the endpoint label and status; a transport error is rethrown. -/
inductive FetchErr where
  | httpStatus (apiName : String) (status : Nat) : FetchErr
  | transport (cause : String) : FetchErr
deriving Repr, DecidableEq

/-- Errors raised by the Firestore layer: a collection batch-commit
failure during clearing, or a failure of the final `set`. -/
inductive StoreErr where
  | commitFailed (collId : String) : StoreErr
  | writeFailed : StoreErr
deriving Repr, DecidableEq

/-- `response.ok` of the fetch API: status in the 2xx range. -/
def statusOk (status : Nat) : Bool := 200 ≤ status && status < 300

/-- One stored document: its id and its JSON data. -/
structure Doc where
  id : String
  data : Json
deriving Repr

/-- One top-level collection: its id and its documents. -/
structure Collection where
  id : String
  docs : List Doc
deriving Repr

/-- The document store: the list of top-level collections, in the order
`listCollections` enumerates them. -/
abbrev Store : Type := List Collection

/-- Observable events of a run, in the order they happen. -/
inductive Event where
  | clearedColl (collId : String) : Event
  | fetched (req : Request) : Event
  | wroteSnapshot : Event
deriving Repr, DecidableEq

/-- The composite record `fetchSpaceNews` assembles (interface SpaceNews).
The code casts each fetched value to a typed interface, but the casts are
erased at runtime, so each slot holds the raw JSON value. -/
structure SpaceNews where
  nasa : Json
  spacex : Json
  spacexHistory : Json
  eonet : Json

/-- The JSON object `set(spaceNews)` persists. -/
def SpaceNews.toJson (s : SpaceNews) : Json :=
  .obj [("nasa", s.nasa), ("spacex", s.spacex),
        ("spacexHistory", s.spacexHistory), ("eonet", s.eonet)]

/-- URL of the SpaceX launch endpoint (SPACEX_LAUNCH_URL). -/
def SPACEX_LAUNCH_URL : String := "https://api.spacexdata.com/v3/missions"

/-- URL of the NASA APOD endpoint; the API key is interpolated from config
(NASA_APOD_URL). -/
def NASA_APOD_URL (apiKey : String) : String :=
  "https://api.nasa.gov/planetary/apod?api_key=" ++ apiKey

/-- URL of the SpaceX history endpoint (SPACEX_HIST_URL). -/
def SPACEX_HIST_URL : String := "https://api.spacexdata.com/v4/history"

/-- URL of the NASA EONET endpoint (NASA_EONET_URL). -/
def NASA_EONET_URL : String :=
  "https://eonet.gsfc.nasa.gov/api/v3/categories/severeStorms"

/-- `fetchWithLogging(url, apiName, headers)`: issue one GET for `url` with
`headers`; rethrow a transport failure; throw `Error(label, status)` on a
non-2xx status; otherwise return the parsed JSON body. The second component
is the request actually issued. -/
def fetchWithLogging (net : Net) (url : String) (apiName : String)
    (headers : List (String × String)) : Except FetchErr Json × Request :=
  let req : Request := ⟨url, headers⟩
  (match net req with
   | .transportError cause => .error (.transport cause)
   | .response status body =>
     if statusOk status then .ok body
     else .error (.httpStatus apiName status),
   req)

/-- `fetchSpaceNews()`: the four fetches in their fixed order — NASA APOD,
SpaceX Launch, SpaceX History, NASA EONET — each awaited before the next
starts; the catch block turns the first failure into `null`. Returns the
result together with the fetch events, in order, including the failing
request. -/
def fetchSpaceNews (apiKey : String) (net : Net) :
    Option SpaceNews × List Event :=
  match fetchWithLogging net (NASA_APOD_URL apiKey) "NASA APOD" [] with
  | (.error _, q1) => (none, [.fetched q1])
  | (.ok nasaData, q1) =>
    match fetchWithLogging net SPACEX_LAUNCH_URL "SpaceX Launch" [] with
    | (.error _, q2) => (none, [.fetched q1, .fetched q2])
    | (.ok spacexData, q2) =>
      match fetchWithLogging net SPACEX_HIST_URL "SpaceX History" [] with
      | (.error _, q3) => (none, [.fetched q1, .fetched q2, .fetched q3])
      | (.ok spacexHistoryData, q3) =>
        match fetchWithLogging net NASA_EONET_URL "NASA EONET" [] with
        | (.error _, q4) =>
          (none, [.fetched q1, .fetched q2, .fetched q3, .fetched q4])
        | (.ok eonetData, q4) =>
          (some ⟨nasaData, spacexData, spacexHistoryData, eonetData⟩,
           [.fetched q1, .fetched q2, .fetched q3, .fetched q4])

/-- The loop body of `clearFirestore`: for each collection in order, read
its documents, batch-delete them, and commit. `commitOk i` says whether the
`i`-th commit succeeds; a commit is atomic, so a failed commit leaves its
collection untouched and aborts the loop with the error. Returns the store
after the loop, the clear events, and the error if one was thrown. -/
def clearLoop (commitOk : Nat → Bool) :
    Nat → List Collection → List Collection × List Event × Option StoreErr
  | _, [] => ([], [], none)
  | i, c :: rest =>
    if commitOk i then
      let r := clearLoop commitOk (i + 1) rest
      (⟨c.id, []⟩ :: r.1, .clearedColl c.id :: r.2.1, r.2.2)
    else
      (c :: rest, [], some (.commitFailed c.id))

/-- `clearFirestore()`: list all collections and clear each in turn. -/
def clearFirestore (commitOk : Nat → Bool) (st : Store) :
    Store × List Event × Option StoreErr :=
  clearLoop commitOk 0 st

/-- `setDocInColl docs docId v`: overwrite (or create) the document `docId`
inside one collection's document list. -/
def setDocInColl : List Doc → String → Json → List Doc
  | [], docId, v => [⟨docId, v⟩]
  | d :: rest, docId, v =>
    if d.id = docId then ⟨docId, v⟩ :: rest
    else d :: setDocInColl rest docId v

/-- `firestore.collection(collId).doc(docId).set(v)`: full overwrite of the
document at a fixed address, creating collection and document as needed. -/
def setDoc : Store → String → String → Json → Store
  | [], collId, docId, v => [⟨collId, [⟨docId, v⟩]⟩]
  | c :: rest, collId, docId, v =>
    if c.id = collId then ⟨c.id, setDocInColl c.docs docId v⟩ :: rest
    else c :: setDoc rest collId docId v

/-- Read the document at `docId` in one collection's document list. -/
def getDocInColl : List Doc → String → Option Json
  | [], _ => none
  | d :: rest, docId =>
    if d.id = docId then some d.data else getDocInColl rest docId

/-- Read the document at a collection/document address. -/
def getDoc : Store → String → String → Option Json
  | [], _, _ => none
  | c :: rest, collId, docId =>
    if c.id = collId then getDocInColl c.docs docId
    else getDoc rest collId docId

/-- The try-block of `fetchAndStoreSpaceNews`: clear the store, fetch the
news, and if a snapshot came back, `set` it at spaceNews/latest (`writeOk`
says whether that `set` succeeds). The third component is the exception
state at the end of the try-block: `.error e` means `e` escaped the block. -/
def fetchAndStoreBody (apiKey : String) (net : Net) (commitOk : Nat → Bool)
    (writeOk : Bool) (st : Store) :
    Store × List Event × Except StoreErr Unit :=
  match clearFirestore commitOk st with
  | (st1, evs1, some e) => (st1, evs1, .error e)
  | (st1, evs1, none) =>
    match fetchSpaceNews apiKey net with
    | (none, evs2) => (st1, evs1 ++ evs2, .ok ())
    | (some s, evs2) =>
      if writeOk then
        (setDoc st1 "spaceNews" "latest" s.toJson,
         evs1 ++ evs2 ++ [.wroteSnapshot], .ok ())
      else (st1, evs1 ++ evs2, .error .writeFailed)

/-- `fetchAndStoreSpaceNews()`: the try-block wrapped in the catch that
logs the error and returns normally. -/
def fetchAndStoreSpaceNews (apiKey : String) (net : Net)
    (commitOk : Nat → Bool) (writeOk : Bool) (st : Store) :
    Store × List Event × Except StoreErr Unit :=
  match fetchAndStoreBody apiKey net commitOk writeOk st with
  | (st2, evs, .ok _) => (st2, evs, .ok ())
  | (st2, evs, .error _) => (st2, evs, .ok ())

/-- An HTTP response of the on-demand handler: status code and body text. -/
structure HttpResponse where
  status : Nat
  body : String
deriving Repr, DecidableEq

/-- `fetchNewsHandler`: await `fetchAndStoreSpaceNews()` and answer 200 with
the success message; if that await threw, answer 500 with the failure
message. Returns the response together with the post-run store and events. -/
def fetchNewsHandler (apiKey : String) (net : Net) (commitOk : Nat → Bool)
    (writeOk : Bool) (st : Store) : HttpResponse × Store × List Event :=
  match fetchAndStoreSpaceNews apiKey net commitOk writeOk st with
  | (st2, evs, .ok _) => (⟨200, "Space news fetched and stored."⟩, st2, evs)
  | (st2, evs, .error _) => (⟨500, "Error fetching space news."⟩, st2, evs)

/-- `scheduledApiFetch`: the timer entry point; same pipeline, no response.
The boolean records whether its catch branch ran (logged a schedule error). -/
def scheduledApiFetch (apiKey : String) (net : Net) (commitOk : Nat → Bool)
    (writeOk : Bool) (st : Store) : Store × List Event × Bool :=
  match fetchAndStoreSpaceNews apiKey net commitOk writeOk st with
  | (st2, evs, .ok _) => (st2, evs, false)
  | (st2, evs, .error _) => (st2, evs, true)

/-- Number of snapshot documents live in the store: documents sitting in a
collection named spaceNews (the fixed snapshot collection). -/
def snapshotCount (st : Store) : Nat :=
  (st.map (fun c => if c.id = "spaceNews" then c.docs.length else 0)).sum

/-- Total number of documents in the store, across all collections. -/
def totalDocs (st : Store) : Nat :=
  (st.map (fun c => c.docs.length)).sum

/-- Whether `fetchWithLogging` would fail on this request under this
network: a transport error or a non-2xx status. -/
def reqFails (net : Net) (req : Request) : Bool :=
  match net req with
  | .transportError _ => true
  | .response status _ => !statusOk status

/-- The JSON body the network answers with for a request (meaningful only
when the request does not fail). -/
def respBody (net : Net) (req : Request) : Json :=
  match net req with
  | .transportError _ => .null
  | .response _ body => body

/-- The four requests a run issues, in the fixed order of the code:
NASA APOD, SpaceX Launch, SpaceX History, NASA EONET. -/
def runRequests (apiKey : String) : List Request :=
  [⟨NASA_APOD_URL apiKey, []⟩, ⟨SPACEX_LAUNCH_URL, []⟩,
   ⟨SPACEX_HIST_URL, []⟩, ⟨NASA_EONET_URL, []⟩]

/-- The snapshot assembled from the four response bodies, each unchanged. -/
def mkSnapshot (apiKey : String) (net : Net) : SpaceNews :=
  ⟨respBody net ⟨NASA_APOD_URL apiKey, []⟩,
   respBody net ⟨SPACEX_LAUNCH_URL, []⟩,
   respBody net ⟨SPACEX_HIST_URL, []⟩,
   respBody net ⟨NASA_EONET_URL, []⟩⟩

/-- A collection with its documents deleted, as one committed batch leaves it. -/
def emptyColl (c : Collection) : Collection := ⟨c.id, []⟩


/-! ### Concrete scenarios used as witnesses and counterexamples -/

/-- A network on which every request succeeds with status 200. -/
def netDemo : Net := fun _ => .response 200 (.str "ok")

/-- A network on which every request answers status 500. -/
def netFail500 : Net := fun _ => .response 500 .null

/-- A network that succeeds with a 204 and a fixed payload. -/
def netOkW : Net := fun _ => .response 204 (.str "payload")

/-- A network that answers 404 everywhere. -/
def net404W : Net := fun _ => .response 404 .null

/-- A network whose transport always fails. -/
def netDownW : Net := fun _ => .transportError "reset"

/-- A network that fails (503) exactly on the third endpoint in sequence,
the SpaceX history URL, and succeeds elsewhere. -/
def netFailThird : Net := fun req =>
  if req.url = SPACEX_HIST_URL then .response 503 .null
  else .response 200 (.str "ok")

/-- The spec scenario's mocked daily-image payload. -/
def mockNasa : Json :=
  .obj [("title", .str "T"), ("explanation", .str "E"),
        ("date", .str "2024-01-01")]

/-- The spec scenario's mocked launch payload. -/
def mockLaunch : Json :=
  .obj [("name", .str "N"), ("details", .str "D"),
        ("date_utc", .str "2024-01-02T00:00:00Z")]

/-- The spec scenario's mocked launch-history payload. -/
def mockHist : Json :=
  .arr [.obj [("event_date_utc", .str "2023-01-01"), ("title", .str "H1"),
              ("details", .str "d1")]]

/-- A network serving the spec scenario's four mocked responses. -/
def netMock : Net := fun req =>
  if req.url = NASA_APOD_URL "K" then .response 200 mockNasa
  else if req.url = SPACEX_LAUNCH_URL then .response 200 mockLaunch
  else if req.url = SPACEX_HIST_URL then .response 200 mockHist
  else .response 200 (.arr [])

/-- The snapshot the spec scenario expects: the four mocked payloads in the
four slots. -/
def mockSnapshot : SpaceNews := ⟨mockNasa, mockLaunch, mockHist, .arr []⟩

/-- Commit oracle under which every batch commit succeeds. -/
def allCommitsOk : Nat → Bool := fun _ => true

/-- Commit oracle under which the very first batch commit fails. -/
def noCommitsOk : Nat → Bool := fun _ => false

/-- Commit oracle under which only the first collection's commit succeeds. -/
def firstCommitOnly : Nat → Bool := fun i => i == 0

/-- A pre-seeded store: one old snapshot plus one other collection. -/
def demoStore : Store :=
  [⟨"spaceNews", [⟨"latest", .str "old"⟩]⟩, ⟨"other", [⟨"d1", .null⟩]⟩]

/-- A two-collection store used to exhibit the partial effect of a failing
clear. -/
def twoCollStore : Store :=
  [⟨"a", [⟨"d", .null⟩]⟩, ⟨"b", [⟨"d", .null⟩]⟩]

/-! ### Helper lemmas -/

theorem fetchWithLogging_snd (net : Net) (url apiName : String)
    (headers : List (String × String)) :
    (fetchWithLogging net url apiName headers).2 = ⟨url, headers⟩ := rfl

theorem fetchWithLogging_ok (net : Net) (url apiName : String)
    (headers : List (String × String))
    (hf : reqFails net ⟨url, headers⟩ = false) :
    fetchWithLogging net url apiName headers =
      (.ok (respBody net ⟨url, headers⟩), ⟨url, headers⟩) := by
  unfold reqFails at hf
  rcases hn : net ⟨url, headers⟩ with cause | ⟨status, body⟩ <;> rw [hn] at hf
  · simp at hf
  · simp only [Bool.not_eq_false'] at hf
    simp [fetchWithLogging, respBody, hn, hf]

theorem fetchWithLogging_err (net : Net) (url apiName : String)
    (headers : List (String × String))
    (hf : reqFails net ⟨url, headers⟩ = true) :
    ∃ e, fetchWithLogging net url apiName headers = (.error e, ⟨url, headers⟩) := by
  unfold reqFails at hf
  rcases hn : net ⟨url, headers⟩ with cause | ⟨status, body⟩ <;> rw [hn] at hf
  · exact ⟨.transport cause, by simp [fetchWithLogging, hn]⟩
  · simp only [Bool.not_eq_true'] at hf
    exact ⟨.httpStatus apiName status, by simp [fetchWithLogging, hn, hf]⟩

theorem clearLoop_shape (commitOk : Nat → Bool) (st : List Collection) :
    ∀ i, ∃ n, n ≤ st.length ∧
      (clearLoop commitOk i st).1 = (st.take n).map emptyColl ++ st.drop n ∧
      (clearLoop commitOk i st).2.1 =
        (st.take n).map (fun c => Event.clearedColl c.id) ∧
      ((clearLoop commitOk i st).2.2 = none ↔ n = st.length) := by
  induction st with
  | nil =>
    intro i
    exact ⟨0, by simp [clearLoop]⟩
  | cons c rest ih =>
    intro i
    by_cases h : commitOk i
    · obtain ⟨n, hn, hst, hev, hnone⟩ := ih (i + 1)
      refine ⟨n + 1, by simpa using hn, ?_, ?_, ?_⟩
      · simp [clearLoop, h, hst, emptyColl]
      · simp [clearLoop, h, hev]
      · simpa [clearLoop, h] using hnone
    · refine ⟨0, by simp, by simp [clearLoop, h], by simp [clearLoop, h], ?_⟩
      simp [clearLoop, h]

theorem clearFirestore_shape (commitOk : Nat → Bool) (st : Store) :
    ∃ n, n ≤ st.length ∧
      (clearFirestore commitOk st).1 = (st.take n).map emptyColl ++ st.drop n ∧
      (clearFirestore commitOk st).2.1 =
        (st.take n).map (fun c => Event.clearedColl c.id) ∧
      ((clearFirestore commitOk st).2.2 = none ↔ n = st.length) :=
  clearLoop_shape commitOk st 0

theorem clearFirestore_none_store (commitOk : Nat → Bool) (st : Store)
    (h : (clearFirestore commitOk st).2.2 = none) :
    (clearFirestore commitOk st).1 = st.map emptyColl := by
  obtain ⟨n, _, hst, _, hiff⟩ := clearFirestore_shape commitOk st
  have hn : n = st.length := hiff.mp h
  subst hn
  simpa using hst

theorem clearFirestore_none_events (commitOk : Nat → Bool) (st : Store)
    (h : (clearFirestore commitOk st).2.2 = none) :
    (clearFirestore commitOk st).2.1 =
      st.map (fun c => Event.clearedColl c.id) := by
  obtain ⟨n, _, _, hev, hiff⟩ := clearFirestore_shape commitOk st
  have hn : n = st.length := hiff.mp h
  subst hn
  simpa using hev

theorem clearFirestore_events_cleared (commitOk : Nat → Bool) (st : Store) :
    ∀ e ∈ (clearFirestore commitOk st).2.1, ∃ cid, e = Event.clearedColl cid := by
  obtain ⟨n, _, _, hev, _⟩ := clearFirestore_shape commitOk st
  rw [hev]
  intro e he
  obtain ⟨c, _, hc⟩ := List.mem_map.mp he
  exact ⟨c.id, hc.symm⟩

theorem totalDocs_map_emptyColl (l : List Collection) :
    totalDocs (l.map emptyColl) = 0 := by
  induction l with
  | nil => simp [totalDocs]
  | cons c rest ih => simpa [totalDocs, emptyColl] using ih

theorem clearFirestore_none_totalDocs (commitOk : Nat → Bool) (st : Store)
    (h : (clearFirestore commitOk st).2.2 = none) :
    totalDocs (clearFirestore commitOk st).1 = 0 := by
  rw [clearFirestore_none_store commitOk st h]
  exact totalDocs_map_emptyColl st

theorem snapshotCount_append (a b : Store) :
    snapshotCount (a ++ b) = snapshotCount a + snapshotCount b := by
  simp [snapshotCount]

theorem snapshotCount_map_emptyColl (l : List Collection) :
    snapshotCount (l.map emptyColl) = 0 := by
  induction l with
  | nil => simp [snapshotCount]
  | cons c rest ih => simpa [snapshotCount, emptyColl] using ih

theorem snapshotCount_le_totalDocs (st : Store) :
    snapshotCount st ≤ totalDocs st := by
  unfold snapshotCount totalDocs
  apply List.sum_le_sum
  intro c _
  split <;> simp

theorem clearFirestore_snapshotCount_le (commitOk : Nat → Bool) (st : Store) :
    snapshotCount (clearFirestore commitOk st).1 ≤ snapshotCount st := by
  obtain ⟨n, _, hst, _, _⟩ := clearFirestore_shape commitOk st
  rw [hst, snapshotCount_append, snapshotCount_map_emptyColl]
  have hsplit : snapshotCount st =
      snapshotCount (st.take n) + snapshotCount (st.drop n) := by
    rw [← snapshotCount_append, List.take_append_drop]
  omega

theorem getDocInColl_setDocInColl (docs : List Doc) (docId : String) (v : Json) :
    getDocInColl (setDocInColl docs docId v) docId = some v := by
  induction docs with
  | nil => simp [setDocInColl, getDocInColl]
  | cons d rest ih =>
    by_cases h : d.id = docId <;>
      simp [setDocInColl, getDocInColl, h, ih]

theorem getDoc_setDoc (st : Store) (collId docId : String) (v : Json) :
    getDoc (setDoc st collId docId v) collId docId = some v := by
  induction st with
  | nil => simp [setDoc, getDoc, getDocInColl]
  | cons c rest ih =>
    by_cases h : c.id = collId <;>
      simp [setDoc, getDoc, h, ih, getDocInColl_setDocInColl]

theorem snapshotCount_cons (c : Collection) (rest : Store) :
    snapshotCount (c :: rest) =
      (if c.id = "spaceNews" then c.docs.length else 0) + snapshotCount rest := by
  simp [snapshotCount]

theorem snapshotCount_setDoc_of_zero (st : Store) (v : Json)
    (h : snapshotCount st = 0) :
    snapshotCount (setDoc st "spaceNews" "latest" v) = 1 := by
  induction st with
  | nil => simp [setDoc, snapshotCount]
  | cons c rest ih =>
    rw [snapshotCount_cons] at h
    by_cases hc : c.id = "spaceNews"
    · rw [if_pos hc] at h
      have hlen : c.docs.length = 0 := by omega
      have hrest : snapshotCount rest = 0 := by omega
      have hnil : c.docs = [] := List.length_eq_zero.mp hlen
      rw [show setDoc (c :: rest) "spaceNews" "latest" v =
            ⟨c.id, setDocInColl c.docs "latest" v⟩ :: rest from by
          simp [setDoc, hc]]
      rw [snapshotCount_cons]
      simp [hc, hnil, setDocInColl, hrest]
    · rw [if_neg hc] at h
      have hrest : snapshotCount rest = 0 := by omega
      rw [show setDoc (c :: rest) "spaceNews" "latest" v =
            c :: setDoc rest "spaceNews" "latest" v from by simp [setDoc, hc]]
      rw [snapshotCount_cons, if_neg hc, ih hrest]

theorem fetchSpaceNews_all_ok (apiKey : String) (net : Net)
    (h0 : reqFails net ⟨NASA_APOD_URL apiKey, []⟩ = false)
    (h1 : reqFails net ⟨SPACEX_LAUNCH_URL, []⟩ = false)
    (h2 : reqFails net ⟨SPACEX_HIST_URL, []⟩ = false)
    (h3 : reqFails net ⟨NASA_EONET_URL, []⟩ = false) :
    fetchSpaceNews apiKey net =
      (some (mkSnapshot apiKey net), (runRequests apiKey).map Event.fetched) := by
  unfold fetchSpaceNews
  rw [fetchWithLogging_ok net (NASA_APOD_URL apiKey) "NASA APOD" [] h0,
      fetchWithLogging_ok net SPACEX_LAUNCH_URL "SpaceX Launch" [] h1,
      fetchWithLogging_ok net SPACEX_HIST_URL "SpaceX History" [] h2,
      fetchWithLogging_ok net NASA_EONET_URL "NASA EONET" [] h3]
  rfl

theorem fetchSpaceNews_fail1 (apiKey : String) (net : Net)
    (h0 : reqFails net ⟨NASA_APOD_URL apiKey, []⟩ = true) :
    fetchSpaceNews apiKey net =
      (none, ((runRequests apiKey).take 1).map Event.fetched) := by
  obtain ⟨e, he⟩ := fetchWithLogging_err net (NASA_APOD_URL apiKey) "NASA APOD" [] h0
  unfold fetchSpaceNews
  rw [he]
  rfl

theorem fetchSpaceNews_fail2 (apiKey : String) (net : Net)
    (h0 : reqFails net ⟨NASA_APOD_URL apiKey, []⟩ = false)
    (h1 : reqFails net ⟨SPACEX_LAUNCH_URL, []⟩ = true) :
    fetchSpaceNews apiKey net =
      (none, ((runRequests apiKey).take 2).map Event.fetched) := by
  obtain ⟨e, he⟩ := fetchWithLogging_err net SPACEX_LAUNCH_URL "SpaceX Launch" [] h1
  unfold fetchSpaceNews
  rw [fetchWithLogging_ok net (NASA_APOD_URL apiKey) "NASA APOD" [] h0, he]
  rfl

theorem fetchSpaceNews_fail3 (apiKey : String) (net : Net)
    (h0 : reqFails net ⟨NASA_APOD_URL apiKey, []⟩ = false)
    (h1 : reqFails net ⟨SPACEX_LAUNCH_URL, []⟩ = false)
    (h2 : reqFails net ⟨SPACEX_HIST_URL, []⟩ = true) :
    fetchSpaceNews apiKey net =
      (none, ((runRequests apiKey).take 3).map Event.fetched) := by
  obtain ⟨e, he⟩ := fetchWithLogging_err net SPACEX_HIST_URL "SpaceX History" [] h2
  unfold fetchSpaceNews
  rw [fetchWithLogging_ok net (NASA_APOD_URL apiKey) "NASA APOD" [] h0,
      fetchWithLogging_ok net SPACEX_LAUNCH_URL "SpaceX Launch" [] h1, he]
  rfl

theorem fetchSpaceNews_fail4 (apiKey : String) (net : Net)
    (h0 : reqFails net ⟨NASA_APOD_URL apiKey, []⟩ = false)
    (h1 : reqFails net ⟨SPACEX_LAUNCH_URL, []⟩ = false)
    (h2 : reqFails net ⟨SPACEX_HIST_URL, []⟩ = false)
    (h3 : reqFails net ⟨NASA_EONET_URL, []⟩ = true) :
    fetchSpaceNews apiKey net =
      (none, ((runRequests apiKey).take 4).map Event.fetched) := by
  obtain ⟨e, he⟩ := fetchWithLogging_err net NASA_EONET_URL "NASA EONET" [] h3
  unfold fetchSpaceNews
  rw [fetchWithLogging_ok net (NASA_APOD_URL apiKey) "NASA APOD" [] h0,
      fetchWithLogging_ok net SPACEX_LAUNCH_URL "SpaceX Launch" [] h1,
      fetchWithLogging_ok net SPACEX_HIST_URL "SpaceX History" [] h2, he]
  rfl

theorem fetchSpaceNews_events_fetched (apiKey : String) (net : Net) :
    ∀ e ∈ (fetchSpaceNews apiKey net).2, ∃ q, e = Event.fetched q := by
  have main : ∃ k, (fetchSpaceNews apiKey net).2 =
      ((runRequests apiKey).take k).map Event.fetched := by
    by_cases h0 : reqFails net ⟨NASA_APOD_URL apiKey, []⟩ = true
    · exact ⟨1, by rw [fetchSpaceNews_fail1 apiKey net h0]⟩
    · rw [Bool.not_eq_true] at h0
      by_cases h1 : reqFails net ⟨SPACEX_LAUNCH_URL, []⟩ = true
      · exact ⟨2, by rw [fetchSpaceNews_fail2 apiKey net h0 h1]⟩
      · rw [Bool.not_eq_true] at h1
        by_cases h2 : reqFails net ⟨SPACEX_HIST_URL, []⟩ = true
        · exact ⟨3, by rw [fetchSpaceNews_fail3 apiKey net h0 h1 h2]⟩
        · rw [Bool.not_eq_true] at h2
          by_cases h3 : reqFails net ⟨NASA_EONET_URL, []⟩ = true
          · exact ⟨4, by rw [fetchSpaceNews_fail4 apiKey net h0 h1 h2 h3]⟩
          · rw [Bool.not_eq_true] at h3
            refine ⟨4, ?_⟩
            rw [fetchSpaceNews_all_ok apiKey net h0 h1 h2 h3]
            rfl
  obtain ⟨k, hk⟩ := main
  rw [hk]
  intro e he
  obtain ⟨q, _, hq⟩ := List.mem_map.mp he
  exact ⟨q, hq.symm⟩

theorem fetchAndStore_eq (apiKey : String) (net : Net) (commitOk : Nat → Bool)
    (writeOk : Bool) (st : Store) :
    fetchAndStoreSpaceNews apiKey net commitOk writeOk st =
      ((fetchAndStoreBody apiKey net commitOk writeOk st).1,
       (fetchAndStoreBody apiKey net commitOk writeOk st).2.1, Except.ok ()) := by
  rcases h : fetchAndStoreBody apiKey net commitOk writeOk st with ⟨st2, evs, out⟩
  cases out <;> simp [fetchAndStoreSpaceNews, h]

theorem fetchNewsHandler_eq (apiKey : String) (net : Net) (commitOk : Nat → Bool)
    (writeOk : Bool) (st : Store) :
    fetchNewsHandler apiKey net commitOk writeOk st =
      (⟨200, "Space news fetched and stored."⟩,
       (fetchAndStoreBody apiKey net commitOk writeOk st).1,
       (fetchAndStoreBody apiKey net commitOk writeOk st).2.1) := by
  rw [fetchNewsHandler, fetchAndStore_eq]

theorem scheduledApiFetch_eq (apiKey : String) (net : Net) (commitOk : Nat → Bool)
    (writeOk : Bool) (st : Store) :
    scheduledApiFetch apiKey net commitOk writeOk st =
      ((fetchAndStoreBody apiKey net commitOk writeOk st).1,
       (fetchAndStoreBody apiKey net commitOk writeOk st).2.1, false) := by
  rw [scheduledApiFetch, fetchAndStore_eq]

theorem body_clear_err (apiKey : String) (net : Net) (commitOk : Nat → Bool)
    (writeOk : Bool) (st : Store) (e : StoreErr)
    (h : (clearFirestore commitOk st).2.2 = some e) :
    fetchAndStoreBody apiKey net commitOk writeOk st =
      ((clearFirestore commitOk st).1,
       (clearFirestore commitOk st).2.1, .error e) := by
  rcases hcl : clearFirestore commitOk st with ⟨st1, evs1, err⟩
  rw [hcl] at h
  simp only at h
  subst h
  simp [fetchAndStoreBody, hcl]

theorem body_fetch_none (apiKey : String) (net : Net) (commitOk : Nat → Bool)
    (writeOk : Bool) (st : Store)
    (h : (clearFirestore commitOk st).2.2 = none)
    (hf : (fetchSpaceNews apiKey net).1 = none) :
    fetchAndStoreBody apiKey net commitOk writeOk st =
      ((clearFirestore commitOk st).1,
       (clearFirestore commitOk st).2.1 ++ (fetchSpaceNews apiKey net).2,
       .ok ()) := by
  rcases hcl : clearFirestore commitOk st with ⟨st1, evs1, err⟩
  rw [hcl] at h
  simp only at h
  subst h
  rcases hfs : fetchSpaceNews apiKey net with ⟨res, evs2⟩
  rw [hfs] at hf
  simp only at hf
  subst hf
  simp [fetchAndStoreBody, hcl, hfs]

theorem body_write (apiKey : String) (net : Net) (commitOk : Nat → Bool)
    (st : Store) (s : SpaceNews)
    (h : (clearFirestore commitOk st).2.2 = none)
    (hs : (fetchSpaceNews apiKey net).1 = some s) :
    fetchAndStoreBody apiKey net commitOk true st =
      (setDoc (clearFirestore commitOk st).1 "spaceNews" "latest" s.toJson,
       (clearFirestore commitOk st).2.1 ++ (fetchSpaceNews apiKey net).2 ++
         [.wroteSnapshot], .ok ()) := by
  rcases hcl : clearFirestore commitOk st with ⟨st1, evs1, err⟩
  rw [hcl] at h
  simp only at h
  subst h
  rcases hfs : fetchSpaceNews apiKey net with ⟨res, evs2⟩
  rw [hfs] at hs
  simp only at hs
  subst hs
  simp [fetchAndStoreBody, hcl, hfs]

theorem body_write_fail (apiKey : String) (net : Net) (commitOk : Nat → Bool)
    (st : Store) (s : SpaceNews)
    (h : (clearFirestore commitOk st).2.2 = none)
    (hs : (fetchSpaceNews apiKey net).1 = some s) :
    fetchAndStoreBody apiKey net commitOk false st =
      ((clearFirestore commitOk st).1,
       (clearFirestore commitOk st).2.1 ++ (fetchSpaceNews apiKey net).2,
       .error .writeFailed) := by
  rcases hcl : clearFirestore commitOk st with ⟨st1, evs1, err⟩
  rw [hcl] at h
  simp only at h
  subst h
  rcases hfs : fetchSpaceNews apiKey net with ⟨res, evs2⟩
  rw [hfs] at hs
  simp only at hs
  subst hs
  simp [fetchAndStoreBody, hcl, hfs]

theorem spaceNewsToJson_inj (S T : SpaceNews) (h : S.toJson = T.toJson) :
    S = T := by
  cases S
  cases T
  simpa [SpaceNews.toJson] using h

theorem write_notin_clear_events (commitOk : Nat → Bool) (st : Store) :
    Event.wroteSnapshot ∉ (clearFirestore commitOk st).2.1 := by
  intro hmem
  obtain ⟨cid, hcid⟩ := clearFirestore_events_cleared commitOk st _ hmem
  exact Event.noConfusion hcid

theorem write_notin_fetch_events (apiKey : String) (net : Net) :
    Event.wroteSnapshot ∉ (fetchSpaceNews apiKey net).2 := by
  intro hmem
  obtain ⟨q, hq⟩ := fetchSpaceNews_events_fetched apiKey net _ hmem
  exact Event.noConfusion hq

/-! ### Claims -/

/-- C6: `fetchWithLogging` issues exactly one GET with the given URL and
headers; on a transport failure it propagates that failure; on a non-2xx
response it fails with an error carrying the endpoint label and the status
code; on a 2xx response it returns the JSON body unchanged, with no schema
validation. -/
theorem C6_thm (net : Net) (url apiName : String)
    (headers : List (String × String)) :
    (fetchWithLogging net url apiName headers).2 = ⟨url, headers⟩ ∧
    (∀ cause, net ⟨url, headers⟩ = .transportError cause →
      (fetchWithLogging net url apiName headers).1 =
        .error (.transport cause)) ∧
    (∀ status body, net ⟨url, headers⟩ = .response status body →
      statusOk status = false →
      (fetchWithLogging net url apiName headers).1 =
        .error (.httpStatus apiName status)) ∧
    (∀ status body, net ⟨url, headers⟩ = .response status body →
      statusOk status = true →
      (fetchWithLogging net url apiName headers).1 = .ok body) := by
  refine ⟨rfl, ?_, ?_, ?_⟩
  · intro cause hc
    simp [fetchWithLogging, hc]
  · intro s b hr hs
    simp [fetchWithLogging, hr, hs]
  · intro s b hr hs
    simp [fetchWithLogging, hr, hs]

/-- Witness for C6 at concrete networks: a 204 success returns the body, a
404 fails with the label and status, a transport failure is propagated. -/
theorem C6_witness :
    (fetchWithLogging netOkW "u" "api" [("a", "b")]).2 = ⟨"u", [("a", "b")]⟩ ∧
    (fetchWithLogging netOkW "u" "api" [("a", "b")]).1 = .ok (.str "payload") ∧
    (fetchWithLogging net404W "u" "api" []).1 =
      .error (.httpStatus "api" 404) ∧
    (fetchWithLogging netDownW "u" "api" []).1 = .error (.transport "reset") :=
  ⟨(C6_thm netOkW "u" "api" [("a", "b")]).1,
   (C6_thm netOkW "u" "api" [("a", "b")]).2.2.2 204 (.str "payload") rfl
     (by decide),
   (C6_thm net404W "u" "api" []).2.2.1 404 .null rfl (by decide),
   (C6_thm netDownW "u" "api" []).2.1 "reset" rfl⟩

/-- C8: a successful `clearFirestore` leaves zero documents across all
collections of the store, whatever the store held before. -/
theorem C8_thm (commitOk : Nat → Bool) (st : Store)
    (h : (clearFirestore commitOk st).2.2 = none) :
    totalDocs (clearFirestore commitOk st).1 = 0 :=
  clearFirestore_none_totalDocs commitOk st h

/-- Witness for C8: clearing a store pre-seeded with documents in two
collections succeeds and leaves zero documents. -/
theorem C8_witness :
    (clearFirestore allCommitsOk demoStore).2.2 = none ∧
    totalDocs (clearFirestore allCommitsOk demoStore).1 = 0 :=
  ⟨rfl, C8_thm allCommitsOk demoStore rfl⟩

/-- C7: for every prior store (including non-empty ones) and every snapshot
S, clearing and then writing S at spaceNews/latest makes a read of that
fixed address return exactly S's stored object, and that object determines
S up to structural equality. -/
theorem C7_thm (commitOk : Nat → Bool) (st : Store) (S : SpaceNews) :
    getDoc (setDoc (clearFirestore commitOk st).1 "spaceNews" "latest"
        S.toJson) "spaceNews" "latest" = some S.toJson ∧
    ∀ T : SpaceNews, T.toJson = S.toJson → T = S := by
  refine ⟨getDoc_setDoc _ _ _ _, ?_⟩
  intro T h
  exact spaceNewsToJson_inj T S h

/-- Witness for C7 at a concrete non-empty store and concrete snapshot. -/
theorem C7_witness :
    getDoc (setDoc (clearFirestore allCommitsOk demoStore).1 "spaceNews"
        "latest" mockSnapshot.toJson) "spaceNews" "latest" =
      some mockSnapshot.toJson ∧
    mockSnapshot = mockSnapshot :=
  ⟨(C7_thm allCommitsOk demoStore mockSnapshot).1,
   (C7_thm allCommitsOk demoStore mockSnapshot).2 mockSnapshot rfl⟩

/-- C1 as stated is false: a run whose clear step throws still gets the
status-200 success response, because `fetchAndStoreSpaceNews` catches the
failure internally. Concretely: every batch commit fails, so the clear
throws at the first collection, yet the handler answers 200 with the
success message instead of 500. -/
theorem C1_cex :
    (clearFirestore noCommitsOk demoStore).2.2 =
      some (.commitFailed "spaceNews") ∧
    (fetchNewsHandler "K" netDemo noCommitsOk true demoStore).1 =
      ⟨200, "Space news fetched and stored."⟩ :=
  ⟨rfl, rfl⟩

/-- C1 amended: the on-demand handler always responds with status 200 and
the success message — both when clear, the four fetches and the write all
succeed and when any of those steps throws, because
`fetchAndStoreSpaceNews` catches every failure internally and so the
handler's 500 branch never runs. -/
theorem C1_thm (apiKey : String) (net : Net) (commitOk : Nat → Bool)
    (writeOk : Bool) (st : Store) :
    (fetchNewsHandler apiKey net commitOk writeOk st).1 =
      ⟨200, "Space news fetched and stored."⟩ := by
  rw [fetchNewsHandler_eq]

/-- C2: if the `k`-th of the four endpoints (in the fixed sequence NASA
APOD, SpaceX Launch, SpaceX History, NASA EONET) fails and the ones before
it succeed, the aggregation returns an absent result (no partial snapshot)
and exactly the first `k+1` endpoints were fetched — none after the failing
one. -/
theorem C2_thm (apiKey : String) (net : Net) (k : Nat) (hk : k < 4)
    (hfail : reqFails net ((runRequests apiKey).getD k ⟨"", []⟩) = true)
    (hok : ∀ j, j < k →
      reqFails net ((runRequests apiKey).getD j ⟨"", []⟩) = false) :
    (fetchSpaceNews apiKey net).1 = none ∧
    (fetchSpaceNews apiKey net).2 =
      ((runRequests apiKey).take (k + 1)).map Event.fetched := by
  interval_cases k
  · rw [fetchSpaceNews_fail1 apiKey net (by simpa [runRequests] using hfail)]
    exact ⟨rfl, rfl⟩
  · rw [fetchSpaceNews_fail2 apiKey net
      (by simpa [runRequests] using hok 0 (by norm_num))
      (by simpa [runRequests] using hfail)]
    exact ⟨rfl, rfl⟩
  · rw [fetchSpaceNews_fail3 apiKey net
      (by simpa [runRequests] using hok 0 (by norm_num))
      (by simpa [runRequests] using hok 1 (by norm_num))
      (by simpa [runRequests] using hfail)]
    exact ⟨rfl, rfl⟩
  · rw [fetchSpaceNews_fail4 apiKey net
      (by simpa [runRequests] using hok 0 (by norm_num))
      (by simpa [runRequests] using hok 1 (by norm_num))
      (by simpa [runRequests] using hok 2 (by norm_num))
      (by simpa [runRequests] using hfail)]
    exact ⟨rfl, rfl⟩

/-- Witness for C2: a network failing exactly on the third endpoint yields
an absent result and stops the call sequence after three requests. -/
theorem C2_witness :
    (fetchSpaceNews "K" netFailThird).1 = none ∧
    (fetchSpaceNews "K" netFailThird).2 =
      ((runRequests "K").take 3).map Event.fetched :=
  C2_thm "K" netFailThird 2 (by norm_num) (by decide) (by decide)

/-- C10: `fetchAndStoreSpaceNews` never propagates an exception — its
outcome is always a normal return; consequently the on-demand handler's
catch branch (status 500) and the scheduled handler's catch branch are
unreachable; and when the aggregation returns an absent result no snapshot
write happens: the store stays exactly as the clear left it. -/
theorem C10_thm (apiKey : String) (net : Net) (commitOk : Nat → Bool)
    (writeOk : Bool) (st : Store) :
    (fetchAndStoreSpaceNews apiKey net commitOk writeOk st).2.2 =
      Except.ok () ∧
    (fetchNewsHandler apiKey net commitOk writeOk st).1.status = 200 ∧
    (scheduledApiFetch apiKey net commitOk writeOk st).2.2 = false ∧
    ((fetchSpaceNews apiKey net).1 = none →
      Event.wroteSnapshot ∉
        (fetchAndStoreSpaceNews apiKey net commitOk writeOk st).2.1 ∧
      (fetchAndStoreSpaceNews apiKey net commitOk writeOk st).1 =
        (clearFirestore commitOk st).1) := by
  refine ⟨by rw [fetchAndStore_eq], by rw [fetchNewsHandler_eq],
    by rw [scheduledApiFetch_eq], ?_⟩
  intro hnone
  rw [fetchAndStore_eq]
  simp only
  rcases herr : (clearFirestore commitOk st).2.2 with _ | e
  · rw [body_fetch_none apiKey net commitOk writeOk st herr hnone]
    refine ⟨?_, rfl⟩
    intro hmem
    rcases List.mem_append.mp hmem with hm | hm
    · exact write_notin_clear_events commitOk st hm
    · exact write_notin_fetch_events apiKey net hm
  · rw [body_clear_err apiKey net commitOk writeOk st e herr]
    exact ⟨write_notin_clear_events commitOk st, rfl⟩

/-- Witness for C10 at a network that fails every fetch: the run still
returns normally and the store is exactly the cleared store, with no write
event. -/
theorem C10_witness :
    (fetchAndStoreSpaceNews "K" netFail500 allCommitsOk true demoStore).2.2 =
      Except.ok () ∧
    Event.wroteSnapshot ∉
      (fetchAndStoreSpaceNews "K" netFail500 allCommitsOk true demoStore).2.1 ∧
    (fetchAndStoreSpaceNews "K" netFail500 allCommitsOk true demoStore).1 =
      (clearFirestore allCommitsOk demoStore).1 :=
  ⟨(C10_thm "K" netFail500 allCommitsOk true demoStore).1,
   ((C10_thm "K" netFail500 allCommitsOk true demoStore).2.2.2 rfl).1,
   ((C10_thm "K" netFail500 allCommitsOk true demoStore).2.2.2 rfl).2⟩

theorem fetchSpaceNews_some_events (apiKey : String) (net : Net)
    (s : SpaceNews) (h : (fetchSpaceNews apiKey net).1 = some s) :
    (fetchSpaceNews apiKey net).2 = (runRequests apiKey).map Event.fetched := by
  by_cases h0 : reqFails net ⟨NASA_APOD_URL apiKey, []⟩ = true
  · rw [fetchSpaceNews_fail1 apiKey net h0] at h
    exact absurd h (by simp)
  · rw [Bool.not_eq_true] at h0
    by_cases h1 : reqFails net ⟨SPACEX_LAUNCH_URL, []⟩ = true
    · rw [fetchSpaceNews_fail2 apiKey net h0 h1] at h
      exact absurd h (by simp)
    · rw [Bool.not_eq_true] at h1
      by_cases h2 : reqFails net ⟨SPACEX_HIST_URL, []⟩ = true
      · rw [fetchSpaceNews_fail3 apiKey net h0 h1 h2] at h
        exact absurd h (by simp)
      · rw [Bool.not_eq_true] at h2
        by_cases h3 : reqFails net ⟨NASA_EONET_URL, []⟩ = true
        · rw [fetchSpaceNews_fail4 apiKey net h0 h1 h2 h3] at h
          exact absurd h (by simp)
        · rw [Bool.not_eq_true] at h3
          rw [fetchSpaceNews_all_ok apiKey net h0 h1 h2 h3]

/-- C3 as stated is false: a failing `clearFirestore` is not atomic across
the whole store. With two collections and only the first commit
succeeding, the clear throws at collection b, yet collection a has
already been emptied, so the failed run leaves the store neither empty nor
unchanged. -/
theorem C3_cex :
    (clearFirestore firstCommitOnly twoCollStore).2.2 =
      some (.commitFailed "b") ∧
    (fetchAndStoreSpaceNews "K" netDemo firstCommitOnly true twoCollStore).1 ≠
      twoCollStore := by
  refine ⟨rfl, ?_⟩
  intro h
  have hpost : (fetchAndStoreSpaceNews "K" netDemo firstCommitOnly true
      twoCollStore).1 = [⟨"a", []⟩, ⟨"b", [⟨"d", Json.null⟩]⟩] := rfl
  rw [hpost] at h
  simp [twoCollStore] at h

/-- C3 amended: a failed run leaves the store with zero documents when the
clear succeeded before the failure; when the clear itself failed, the
cleared prefix of collections (each emptied by its own atomic batch) is
empty and the failing collection and all later ones are unchanged — a
failing clearAll is atomic per collection, not across the store. -/
theorem C3_thm (apiKey : String) (net : Net) (commitOk : Nat → Bool)
    (writeOk : Bool) (st : Store) :
    ((clearFirestore commitOk st).2.2 = none →
      Event.wroteSnapshot ∉
        (fetchAndStoreSpaceNews apiKey net commitOk writeOk st).2.1 →
      totalDocs (fetchAndStoreSpaceNews apiKey net commitOk writeOk st).1 =
        0) ∧
    (∀ e, (clearFirestore commitOk st).2.2 = some e →
      ∃ n, n ≤ st.length ∧
        (fetchAndStoreSpaceNews apiKey net commitOk writeOk st).1 =
          (st.take n).map emptyColl ++ st.drop n) := by
  constructor
  · intro hcl hnw
    rw [fetchAndStore_eq] at hnw ⊢
    simp only at hnw ⊢
    rcases hfs : (fetchSpaceNews apiKey net).1 with _ | s
    · rw [body_fetch_none apiKey net commitOk writeOk st hcl hfs]
      exact clearFirestore_none_totalDocs commitOk st hcl
    · cases writeOk
      · rw [body_write_fail apiKey net commitOk st s hcl hfs]
        exact clearFirestore_none_totalDocs commitOk st hcl
      · rw [body_write apiKey net commitOk st s hcl hfs] at hnw
        exact absurd (by simp) hnw
  · intro e hcl
    rw [fetchAndStore_eq]
    simp only
    rw [body_clear_err apiKey net commitOk writeOk st e hcl]
    obtain ⟨n, hn, hst, _, _⟩ := clearFirestore_shape commitOk st
    exact ⟨n, hn, hst⟩

/-- Witness for C3: a fetch-failure run on a cleared store ends with zero
documents, and a run whose clear fails at the second collection leaves the
cleared-prefix shape. -/
theorem C3_witness :
    totalDocs
      (fetchAndStoreSpaceNews "K" netFail500 allCommitsOk true demoStore).1 =
      0 ∧
    ∃ n, n ≤ twoCollStore.length ∧
      (fetchAndStoreSpaceNews "K" netDemo firstCommitOnly true
          twoCollStore).1 =
        (twoCollStore.take n).map emptyColl ++ twoCollStore.drop n :=
  ⟨(C3_thm "K" netFail500 allCommitsOk true demoStore).1 rfl (by decide),
   (C3_thm "K" netDemo firstCommitOnly true twoCollStore).2
     (.commitFailed "b") rfl⟩

/-- C4: starting from a store holding at most one snapshot document, any
run (the store invariant concerns both entry points, which share this
pipeline) ends with at most one snapshot document in the spaceNews
collection, and a run that wrote the snapshot ends with exactly one. -/
theorem C4_thm (apiKey : String) (net : Net) (commitOk : Nat → Bool)
    (writeOk : Bool) (st : Store) (hpre : snapshotCount st ≤ 1) :
    snapshotCount
      (fetchAndStoreSpaceNews apiKey net commitOk writeOk st).1 ≤ 1 ∧
    (Event.wroteSnapshot ∈
        (fetchAndStoreSpaceNews apiKey net commitOk writeOk st).2.1 →
      snapshotCount
        (fetchAndStoreSpaceNews apiKey net commitOk writeOk st).1 = 1) := by
  rw [fetchAndStore_eq]
  simp only
  rcases herr : (clearFirestore commitOk st).2.2 with _ | e
  · have h0 : snapshotCount (clearFirestore commitOk st).1 = 0 := by
      have h1 := clearFirestore_none_totalDocs commitOk st herr
      have h2 := snapshotCount_le_totalDocs (clearFirestore commitOk st).1
      omega
    rcases hfs : (fetchSpaceNews apiKey net).1 with _ | s
    · rw [body_fetch_none apiKey net commitOk writeOk st herr hfs]
      simp only
      refine ⟨by omega, ?_⟩
      intro hmem
      rcases List.mem_append.mp hmem with hm | hm
      · exact absurd hm (write_notin_clear_events commitOk st)
      · exact absurd hm (write_notin_fetch_events apiKey net)
    · cases writeOk
      · rw [body_write_fail apiKey net commitOk st s herr hfs]
        simp only
        refine ⟨by omega, ?_⟩
        intro hmem
        rcases List.mem_append.mp hmem with hm | hm
        · exact absurd hm (write_notin_clear_events commitOk st)
        · exact absurd hm (write_notin_fetch_events apiKey net)
      · rw [body_write apiKey net commitOk st s herr hfs]
        simp only
        have hw := snapshotCount_setDoc_of_zero (clearFirestore commitOk st).1
          s.toJson h0
        exact ⟨by omega, fun _ => hw⟩
  · rw [body_clear_err apiKey net commitOk writeOk st e herr]
    simp only
    refine ⟨le_trans (clearFirestore_snapshotCount_le commitOk st) hpre, ?_⟩
    intro hmem
    exact absurd hmem (write_notin_clear_events commitOk st)

/-- Witness for C4: a fully successful run starting from a store that holds
one old snapshot ends with exactly one snapshot document. -/
theorem C4_witness :
    snapshotCount
      (fetchAndStoreSpaceNews "K" netDemo allCommitsOk true demoStore).1 ≤
      1 ∧
    snapshotCount
      (fetchAndStoreSpaceNews "K" netDemo allCommitsOk true demoStore).1 =
      1 :=
  ⟨(C4_thm "K" netDemo allCommitsOk true demoStore (by decide)).1,
   (C4_thm "K" netDemo allCommitsOk true demoStore (by decide)).2
     (by decide)⟩

/-- C5: the event trace of every run decomposes as clear events, then
fetch events, then write events — the clear precedes every fetch and all
fetching precedes the write, in every scenario; and whenever the snapshot
write happened, no step was skipped: the trace is exactly all collections
cleared, then the four fetches in order, then the write. -/
theorem C5_thm (apiKey : String) (net : Net) (commitOk : Nat → Bool)
    (writeOk : Bool) (st : Store) :
    (∃ cs fl ws,
      (fetchAndStoreSpaceNews apiKey net commitOk writeOk st).2.1 =
        cs ++ fl ++ ws ∧
      (∀ e ∈ cs, ∃ cid, e = Event.clearedColl cid) ∧
      (∀ e ∈ fl, ∃ q, e = Event.fetched q) ∧
      (∀ e ∈ ws, e = Event.wroteSnapshot)) ∧
    (Event.wroteSnapshot ∈
        (fetchAndStoreSpaceNews apiKey net commitOk writeOk st).2.1 →
      (fetchAndStoreSpaceNews apiKey net commitOk writeOk st).2.1 =
        st.map (fun c => Event.clearedColl c.id) ++
          (runRequests apiKey).map Event.fetched ++ [Event.wroteSnapshot]) := by
  rw [fetchAndStore_eq]
  simp only
  rcases herr : (clearFirestore commitOk st).2.2 with _ | e
  · rcases hfs : (fetchSpaceNews apiKey net).1 with _ | s
    · rw [body_fetch_none apiKey net commitOk writeOk st herr hfs]
      simp only
      constructor
      · refine ⟨(clearFirestore commitOk st).2.1, (fetchSpaceNews apiKey net).2,
          [], by simp, clearFirestore_events_cleared commitOk st,
          fetchSpaceNews_events_fetched apiKey net, by simp⟩
      · intro hmem
        rcases List.mem_append.mp hmem with hm | hm
        · exact absurd hm (write_notin_clear_events commitOk st)
        · exact absurd hm (write_notin_fetch_events apiKey net)
    · cases writeOk
      · rw [body_write_fail apiKey net commitOk st s herr hfs]
        simp only
        constructor
        · refine ⟨(clearFirestore commitOk st).2.1,
            (fetchSpaceNews apiKey net).2, [], by simp,
            clearFirestore_events_cleared commitOk st,
            fetchSpaceNews_events_fetched apiKey net, by simp⟩
        · intro hmem
          rcases List.mem_append.mp hmem with hm | hm
          · exact absurd hm (write_notin_clear_events commitOk st)
          · exact absurd hm (write_notin_fetch_events apiKey net)
      · rw [body_write apiKey net commitOk st s herr hfs]
        simp only
        constructor
        · exact ⟨(clearFirestore commitOk st).2.1,
            (fetchSpaceNews apiKey net).2, [Event.wroteSnapshot], rfl,
            clearFirestore_events_cleared commitOk st,
            fetchSpaceNews_events_fetched apiKey net, by simp⟩
        · intro _
          rw [clearFirestore_none_events commitOk st herr,
            fetchSpaceNews_some_events apiKey net s hfs]
  · rw [body_clear_err apiKey net commitOk writeOk st e herr]
    simp only
    constructor
    · refine ⟨(clearFirestore commitOk st).2.1, [], [], by simp,
        clearFirestore_events_cleared commitOk st, by simp, by simp⟩
    · intro hmem
      exact absurd hmem (write_notin_clear_events commitOk st)

/-- Witness for C5: in a fully successful run the trace is exactly the two
collection clears, the four fetches in their fixed order, then the write. -/
theorem C5_witness :
    (fetchAndStoreSpaceNews "K" netDemo allCommitsOk true demoStore).2.1 =
      demoStore.map (fun c => Event.clearedColl c.id) ++
        (runRequests "K").map Event.fetched ++ [Event.wroteSnapshot] :=
  (C5_thm "K" netDemo allCommitsOk true demoStore).2 (by decide)

/-- C9: when all four fetches succeed, the aggregator returns exactly the
four fetched JSON bodies, unchanged, in the nasa / spacex / spacexHistory /
eonet slots (the spec's image / launch / launchHistory / environmentalEvents
slots), and precisely that composite object is what a run stores at
spaceNews/latest. -/
theorem C9_thm (apiKey : String) (net : Net) (commitOk : Nat → Bool)
    (st : Store)
    (h0 : reqFails net ⟨NASA_APOD_URL apiKey, []⟩ = false)
    (h1 : reqFails net ⟨SPACEX_LAUNCH_URL, []⟩ = false)
    (h2 : reqFails net ⟨SPACEX_HIST_URL, []⟩ = false)
    (h3 : reqFails net ⟨NASA_EONET_URL, []⟩ = false)
    (hcl : (clearFirestore commitOk st).2.2 = none) :
    (fetchSpaceNews apiKey net).1 = some (mkSnapshot apiKey net) ∧
    getDoc (fetchAndStoreSpaceNews apiKey net commitOk true st).1
        "spaceNews" "latest" = some (mkSnapshot apiKey net).toJson := by
  have hfs := fetchSpaceNews_all_ok apiKey net h0 h1 h2 h3
  constructor
  · rw [hfs]
  · rw [fetchAndStore_eq]
    simp only
    rw [body_write apiKey net commitOk st (mkSnapshot apiKey net) hcl
      (by rw [hfs])]
    simp only
    exact getDoc_setDoc _ _ _ _

/-- Witness for C9: the spec's mocked scenario — the aggregated snapshot is
the four mocked payloads in their slots, and exactly that object is read
back from spaceNews/latest after the run. -/
theorem C9_witness :
    (fetchSpaceNews "K" netMock).1 = some mockSnapshot ∧
    getDoc (fetchAndStoreSpaceNews "K" netMock allCommitsOk true demoStore).1
        "spaceNews" "latest" = some mockSnapshot.toJson := by
  constructor
  · rw [(C9_thm "K" netMock allCommitsOk demoStore (by decide) (by decide)
      (by decide) (by decide) rfl).1]
    rfl
  · rw [(C9_thm "K" netMock allCommitsOk demoStore (by decide) (by decide)
      (by decide) (by decide) rfl).2]
    rfl
